import Mathlib

/-!
Verification of `body_recomposition_tracker.py`.

The program is a one-shot batch pipeline: collect and validate user input,
derive maximum allowed daily changes from (experience level, gender, age),
compute the required daily change per metric, validate feasibility, generate
three linear daily-target trajectories and write them to a CSV file.

Real-valued quantities are embedded as `ℚ`.  Fallible code paths (the
Python `NameError` when no experience branch assigns the base rates, and the
`IndexError` of `targets[-1]` on an empty list) are embedded as `Option`.
The filesystem effects of `main` are embedded as an explicit outcome record
recording the exit code, whether the output directory was created, and the
CSV lines written, in the order the Python code performs those effects.
-/

namespace BodyRecomp

/-- Gender as validated by `get_user_input` (`'M'` or `'F'`). -/
inductive Gender
  | M
  | F
deriving DecidableEq, Repr

/-- Gender adjustment from `calculate_progression_factors` (source lines 71-75):
`1.0` for male, `0.9` otherwise. -/
def gender_mul (gender : Gender) : ℚ :=
  if gender = Gender.M then 1 else 9/10

/-- Age adjustment chain from `calculate_progression_factors` (source lines
77-87).  The redundant lower bounds of the Python `elif 25 <= age < 35` chain
are dropped: after a failed earlier branch they always hold. -/
def age_mul (age : ℤ) : ℚ :=
  if age < 25 then 1
  else if age < 35 then 95/100
  else if age < 45 then 90/100
  else if age < 55 then 85/100
  else 80/100

/-- Embedding of `calculate_progression_factors` (source lines 47-94).
Returns `(weight_max_daily_change, body_fat_max_daily_change,
muscle_max_daily_change)`.  When no branch of the experience-level chain
fires, the Python code falls through and crashes with a `NameError` on
`base_weight`; that path is `none`. -/
def calculate_progression_factors (experience_level : ℤ) (gender : Gender) (age : ℤ) :
    Option (ℚ × ℚ × ℚ) :=
  match (if experience_level = 1 then some ((7:ℚ)/100, (14:ℚ)/100, (7:ℚ)/100)
         else if experience_level = 2 then some ((6:ℚ)/100, (13:ℚ)/100, (6:ℚ)/100)
         else if experience_level = 3 then some ((5:ℚ)/100, (12:ℚ)/100, (5:ℚ)/100)
         else if experience_level = 4 then some ((4:ℚ)/100, (10:ℚ)/100, (4:ℚ)/100)
         else none) with
  | none => none
  | some (base_weight, base_bf, base_muscle) =>
      some (base_weight * gender_mul gender * age_mul age,
            base_bf * gender_mul gender * age_mul age,
            base_muscle * gender_mul gender * age_mul age)

/-- Embedding of `calculate_required_daily_change` (source lines 96-115):
`daily_change = (final - initial) / n_days`, then sign-forced by `is_loss`. -/
def calculate_required_daily_change (initial final : ℚ) (n_days : ℕ) (is_loss : Bool) : ℚ :=
  if is_loss then -|(final - initial) / (n_days : ℚ)|
  else |(final - initial) / (n_days : ℚ)|

/-- Embedding of `validate_daily_changes` (source lines 117-142): `false` as
soon as one required magnitude strictly exceeds its maximum, `true` otherwise. -/
def validate_daily_changes (daily_weight_change daily_bf_change daily_muscle_change
    weight_max bf_max muscle_max : ℚ) : Bool :=
  if |daily_weight_change| > weight_max then false
  else if |daily_bf_change| > bf_max then false
  else if |daily_muscle_change| > muscle_max then false
  else true

/-- Embedding of `calculate_daily_targets` (source lines 144-163):
`targets = [initial + daily_change * day for day in range(n_days)]`, then
`targets[-1] = final`.  On `n_days = 0` the Python assignment to `targets[-1]`
raises an `IndexError`; that path is `none`. -/
def calculate_daily_targets (n_days : ℕ) (initial final daily_change : ℚ) :
    Option (List ℚ) :=
  if n_days = 0 then none
  else some ((((List.range n_days).map
      (fun (day : ℕ) => initial + daily_change * (day : ℚ))).dropLast) ++ [final])

/-- Round a rational to the nearest integer, ties to even (the rounding of
Python's fixed-point `format`, stated at rational precision). -/
def roundHalfEven (q : ℚ) : ℤ :=
  if q - ⌊q⌋ < 1/2 then ⌊q⌋
  else if 1/2 < q - ⌊q⌋ then ⌊q⌋ + 1
  else if ⌊q⌋ % 2 = 0 then ⌊q⌋ else ⌊q⌋ + 1

/-- Two-digit zero-padded rendering of a remainder below 100. -/
def two_digits (r : ℕ) : String :=
  if r < 10 then "0" ++ toString r else toString r

/-- Embedding of the f-string `f"{v:.2f}"` used by `generate_csv` (source
line 183): fixed two-decimal rendering, at rational precision. -/
def format2 (x : ℚ) : String :=
  let n := roundHalfEven (x * 100)
  let sgn := if n < 0 ∨ (n = 0 ∧ x < 0) then "-" else ""
  sgn ++ toString (n.natAbs / 100) ++ "." ++ two_digits (n.natAbs % 100)

/-- One CSV data row as written by `generate_csv` (source line 183):
`[row[0], f"{row[1]:.2f}", f"{row[2]:.2f}", f"{row[3]:.2f}"]`, comma-joined. -/
def format_row (r : ℕ × ℚ × ℚ × ℚ) : String :=
  toString r.1 ++ "," ++ format2 r.2.1 ++ "," ++ format2 r.2.2.1 ++ "," ++ format2 r.2.2.2

/-- Embedding of `generate_csv` (source lines 165-184) as the list of CSV
lines written: the header row, then one row per element of
`zip(days, weights, body_fats, muscles)` (Python `zip` truncates to the
shortest input). -/
def generate_csv (days : List ℕ) (weights body_fats muscles : List ℚ) : List String :=
  "Day,Weight (kgs),Body Fat (%),Muscle (kgs)" ::
    (days.zip (weights.zip (body_fats.zip muscles))).map format_row

/-- The tuple returned by `get_user_input` after all boundary validation
(source lines 41-42). -/
structure Inputs where
  n_days : ℕ
  w_init : ℚ
  w_final : ℚ
  bf_init : ℚ
  bf_final : ℚ
  m_init : ℚ
  m_final : ℚ
  experience_level : ℤ
  gender : Gender
  age : ℤ
deriving DecidableEq, Repr

/-- The gender membership check of `get_user_input` (source lines 33-35),
on the already stripped and upper-cased answer. -/
def parse_gender (s : String) : Option Gender :=
  if s = "M" then some Gender.M
  else if s = "F" then some Gender.F
  else none

/-- Embedding of the validation performed by `get_user_input` (source lines
4-45) on the raw values, in source order: `n_days >= 1`, experience level in
`{1,2,3,4}`, gender `'M'`/`'F'`, positive age.  Any failure makes the Python
function print the error and `exit(1)`; that path is `none`. -/
def get_user_input (n_days : ℤ) (w_init w_final bf_init bf_final m_init m_final : ℚ)
    (experience_level : ℤ) (gender : String) (age : ℤ) : Option Inputs :=
  if n_days < 1 then none
  else if experience_level ∉ ([1, 2, 3, 4] : List ℤ) then none
  else match parse_gender gender with
    | none => none
    | some g =>
        if age ≤ 0 then none
        else some ⟨n_days.toNat, w_init, w_final, bf_init, bf_final, m_init, m_final,
                   experience_level, g, age⟩

/-- Observable outcome of one run of `main` past input collection: the process
exit code, whether `os.makedirs` ran (source line 215), and the CSV lines
written by `generate_csv` (`none` when no file was created or modified). -/
structure RunOutcome where
  exitCode : ℕ
  madeOutputDir : Bool
  csv : Option (List String)
deriving DecidableEq, Repr

/-- Embedding of `main` (source lines 186-222) after `get_user_input`, in
source order: derive the maxima, compute the three required daily changes
(`is_loss = (final < initial)`), validate; on failure `exit(1)` before the
output directory or CSV file exist; on success create the directory and write
the CSV for days `1..n_days`.  `none` is a crash path (unreachable for
validated inputs). -/
def main (p : Inputs) : Option RunOutcome :=
  match calculate_progression_factors p.experience_level p.gender p.age with
  | none => none
  | some (weight_max, bf_max, muscle_max) =>
      let daily_weight_change :=
        calculate_required_daily_change p.w_init p.w_final p.n_days (decide (p.w_final < p.w_init))
      let daily_bf_change :=
        calculate_required_daily_change p.bf_init p.bf_final p.n_days (decide (p.bf_final < p.bf_init))
      let daily_muscle_change :=
        calculate_required_daily_change p.m_init p.m_final p.n_days (decide (p.m_final < p.m_init))
      if validate_daily_changes daily_weight_change daily_bf_change daily_muscle_change
          weight_max bf_max muscle_max then
        match calculate_daily_targets p.n_days p.w_init p.w_final daily_weight_change,
              calculate_daily_targets p.n_days p.bf_init p.bf_final daily_bf_change,
              calculate_daily_targets p.n_days p.m_init p.m_final daily_muscle_change with
        | some weights, some body_fats, some muscles =>
            some { exitCode := 0, madeOutputDir := true,
                   csv := some (generate_csv (List.range' 1 p.n_days) weights body_fats muscles) }
        | _, _, _ => none
      else
        some { exitCode := 1, madeOutputDir := false, csv := none }

/-! Spec-side definitions, worded from §4.1 of the specification, for the
refinement comparison of the rate model (claim C6). -/

/-- Modelled from the spec: the base per-metric maximum daily change table
keyed by experience level, as an explicit lookup table
(New=0.07/0.14/0.07, Beginner=0.06/0.13/0.06, Intermediate=0.05/0.12/0.05,
Veteran=0.04/0.10/0.04 for weight/body-fat/muscle). -/
def spec_base_table (lvl : ℤ) : Option (ℚ × ℚ × ℚ) :=
  (([(1, ((7:ℚ)/100, (14:ℚ)/100, (7:ℚ)/100)),
     (2, ((6:ℚ)/100, (13:ℚ)/100, (6:ℚ)/100)),
     (3, ((5:ℚ)/100, (12:ℚ)/100, (5:ℚ)/100)),
     (4, ((4:ℚ)/100, (10:ℚ)/100, (4:ℚ)/100))] : List (ℤ × (ℚ × ℚ × ℚ))).lookup lvl)

/-- Modelled from the spec: gender multiplier, M=1.0 and F=0.9. -/
def spec_gender_multiplier : Gender → ℚ
  | Gender.M => 1
  | Gender.F => 9/10

/-- Modelled from the spec: age-bracket multiplier with closed brackets as
worded (`< 25`: 1.0; `25-34`: 0.95; `35-44`: 0.90; `45-54`: 0.85; `≥55`: 0.80). -/
def spec_age_multiplier (age : ℤ) : ℚ :=
  if age < 25 then 1
  else if 25 ≤ age ∧ age ≤ 34 then 95/100
  else if 35 ≤ age ∧ age ≤ 44 then 90/100
  else if 45 ≤ age ∧ age ≤ 54 then 85/100
  else 80/100

/-! Helper lemmas shared by several claims. -/

/-- For a positive number of days, `calculate_daily_targets` is the formula
values for days `0..n_days-2` (0-based) followed by the forced `final`. -/
lemma calculate_daily_targets_succ (m : ℕ) (initial final dc : ℚ) :
    calculate_daily_targets (m + 1) initial final dc =
      some ((List.range m).map (fun (day : ℕ) => initial + dc * (day : ℚ)) ++ [final]) := by
  unfold calculate_daily_targets
  simp [List.range_succ]

/-- The validation function returns `false` exactly when some required
magnitude strictly exceeds its maximum. -/
lemma validate_daily_changes_false_iff (dw dbf dm wmax bfmax mmax : ℚ) :
    validate_daily_changes dw dbf dm wmax bfmax mmax = false ↔
      wmax < |dw| ∨ bfmax < |dbf| ∨ mmax < |dm| := by
  unfold validate_daily_changes
  split_ifs with h1 h2 h3 <;> simp_all

/-- Indexing into a generated trajectory below the forced last element yields
the linear-formula value. -/
lemma calculate_daily_targets_getElem (m : ℕ) (initial final dc : ℚ) (i : ℕ)
    (hi : i < m) :
    ((((List.range m).map (fun (day : ℕ) => initial + dc * (day : ℚ))) ++ [final]))[i]? =
      some (initial + dc * (i : ℚ)) := by
  have hlen : i < ((List.range m).map (fun (day : ℕ) => initial + dc * (day : ℚ))).length := by
    rw [List.length_map, List.length_range]
    exact hi
  rw [List.getElem?_append_left hlen, List.getElem?_map, List.getElem?_range hi,
    Option.map_some']

/-- Zip indexing: elements present at the same index in both lists pair up. -/
lemma zip_getElem_eq {α β : Type} (as : List α) (bs : List β) (i : ℕ) (a : α) (b : β)
    (ha : as[i]? = some a) (hb : bs[i]? = some b) : (as.zip bs)[i]? = some (a, b) := by
  induction as generalizing bs i with
  | nil => simp at ha
  | cons x xs ih =>
      cases bs with
      | nil => simp at hb
      | cons y ys =>
          cases i with
          | zero => simp_all [List.zip_cons_cons]
          | succ j =>
              simp only [List.getElem?_cons_succ] at ha hb
              simpa [List.zip_cons_cons] using ih ys j ha hb

/-! Claim theorems. -/

/-- Claim C9: for `n_days = 1` (accepted by the input validation, which only
requires `n_days ≥ 1`), `calculate_daily_targets` returns the one-element
list `[final]`: the endpoint override replaces the only computed element, so
a one-day trajectory never contains the initial value when `initial ≠ final`. -/
theorem one_day_trajectory_is_final (initial final daily_change : ℚ) :
    calculate_daily_targets 1 initial final daily_change = some [final] ∧
    (initial ≠ final → initial ∉ ([final] : List ℚ)) := by
  constructor
  · simpa using calculate_daily_targets_succ 0 initial final daily_change
  · intro h
    simpa using h

/-- Witness for C9's inner hypothesis at `initial = 10`, `final = 4`. -/
theorem one_day_trajectory_is_final_witness :
    calculate_daily_targets 1 10 4 0 = some [4] ∧
    (10:ℚ) ∉ ([4] : List ℚ) :=
  ⟨(one_day_trajectory_is_final 10 4 0).1,
   (one_day_trajectory_is_final 10 4 0).2 (by norm_num)⟩

/-- Claim C3: for any `n_days ≥ 1`, any endpoints and any daily change, the
last value of the trajectory produced by `calculate_daily_targets` equals the
configured final endpoint exactly. -/
theorem last_day_equals_final (n_days : ℕ) (initial final daily_change : ℚ)
    (h : 1 ≤ n_days) :
    ∃ ts, calculate_daily_targets n_days initial final daily_change = some ts ∧
      ts.getLast? = some final := by
  cases n_days with
  | zero => omega
  | succ m =>
      exact ⟨_, calculate_daily_targets_succ m initial final daily_change,
        List.getLast?_concat _⟩

/-- Witness for C3 at `n_days = 3`, `initial = 10`, `final = 4`, `dc = -2`. -/
theorem last_day_equals_final_witness :
    ∃ ts, calculate_daily_targets 3 10 4 (-2) = some ts ∧ ts.getLast? = some 4 :=
  last_day_equals_final 3 10 4 (-2) (by norm_num)

/-- Claim C2: in the linear case, for every `n_days ≥ 1`, endpoints, and day
`d` with `1 ≤ d < n_days`, the trajectory generated from the required daily
change satisfies `value(d) = initial + dailyChange * (d - 1)` (`value(d)` is
the `d`-th entry, i.e. index `d - 1`). -/
theorem linear_intermediate_values (n_days : ℕ) (initial final : ℚ) (d : ℕ)
    (h1 : 1 ≤ d) (h2 : d < n_days) :
    ∃ ts,
      calculate_daily_targets n_days initial final
        (calculate_required_daily_change initial final n_days
          (decide (final < initial))) = some ts ∧
      ts[d - 1]? = some (initial +
        calculate_required_daily_change initial final n_days
          (decide (final < initial)) * ((d : ℚ) - 1)) := by
  cases n_days with
  | zero => omega
  | succ m =>
      have hd : d - 1 < m := by omega
      have hcast : ((d - 1 : ℕ) : ℚ) = (d : ℚ) - 1 := by
        push_cast [Nat.cast_sub h1]
        ring
      refine ⟨_, calculate_daily_targets_succ m initial final _, ?_⟩
      rw [← hcast]
      exact calculate_daily_targets_getElem m initial final _ (d - 1) hd

/-- Witness for C2 at `n_days = 3`, `initial = 10`, `final = 4`, `d = 2`:
the required daily change is `-2` and `value(2) = 8`. -/
theorem linear_intermediate_values_witness :
    ∃ ts,
      calculate_daily_targets 3 10 4
        (calculate_required_daily_change 10 4 3 (decide ((4:ℚ) < 10))) = some ts ∧
      ts[2 - 1]? = some (10 +
        calculate_required_daily_change 10 4 3 (decide ((4:ℚ) < 10)) * ((2 : ℚ) - 1)) :=
  linear_intermediate_values 3 10 4 2 (by norm_num) (by norm_num)

/-- Claim C5: with `is_loss = (final < initial)` (as `main` invokes it), the
required daily change has magnitude `|final - initial| / n_days`, is strictly
negative when `final < initial`, is the nonnegative `|final - initial| / n_days`
otherwise, and is zero when the endpoints agree. -/
theorem required_daily_change_sign_magnitude (initial final : ℚ) (n_days : ℕ)
    (h : 1 ≤ n_days) :
    |calculate_required_daily_change initial final n_days (decide (final < initial))| =
        |final - initial| / (n_days : ℚ) ∧
    (final < initial →
      calculate_required_daily_change initial final n_days (decide (final < initial)) < 0) ∧
    (¬ final < initial →
      calculate_required_daily_change initial final n_days (decide (final < initial)) =
        |final - initial| / (n_days : ℚ)) ∧
    (initial = final →
      calculate_required_daily_change initial final n_days (decide (final < initial)) = 0) := by
  have hn : (0 : ℚ) < (n_days : ℚ) := by exact_mod_cast h
  have habs : |(final - initial) / (n_days : ℚ)| = |final - initial| / (n_days : ℚ) := by
    rw [abs_div, abs_of_pos hn]
  by_cases hlt : final < initial
  · have hval : calculate_required_daily_change initial final n_days
        (decide (final < initial)) = -(|final - initial| / (n_days : ℚ)) := by
      unfold calculate_required_daily_change
      rw [decide_eq_true hlt, if_pos rfl, habs]
    have hpos : 0 < |final - initial| / (n_days : ℚ) :=
      div_pos (abs_pos.mpr (sub_ne_zero.mpr (ne_of_lt hlt))) hn
    refine ⟨?_, fun _ => ?_, fun hc => absurd hlt hc, fun he => absurd hlt (by simp [he])⟩
    · rw [hval, abs_neg, abs_of_pos hpos]
    · rw [hval]
      linarith
  · have hval : calculate_required_daily_change initial final n_days
        (decide (final < initial)) = |final - initial| / (n_days : ℚ) := by
      unfold calculate_required_daily_change
      rw [decide_eq_false hlt, if_neg (by simp), habs]
    refine ⟨?_, fun hc => absurd hc hlt, fun _ => hval, fun he => ?_⟩
    · rw [hval, abs_of_nonneg (div_nonneg (abs_nonneg _) hn.le)]
    · rw [hval, he]
      simp

/-- Witness for C5 at `initial = 10`, `final = 4`, `n_days = 3`. -/
theorem required_daily_change_sign_magnitude_witness :
    |calculate_required_daily_change 10 4 3 (decide ((4:ℚ) < 10))| =
        |(4:ℚ) - 10| / (3 : ℚ) ∧
    ((4:ℚ) < 10 →
      calculate_required_daily_change 10 4 3 (decide ((4:ℚ) < 10)) < 0) ∧
    (¬ (4:ℚ) < 10 →
      calculate_required_daily_change 10 4 3 (decide ((4:ℚ) < 10)) =
        |(4:ℚ) - 10| / (3 : ℚ)) ∧
    ((10:ℚ) = 4 →
      calculate_required_daily_change 10 4 3 (decide ((4:ℚ) < 10)) = 0) :=
  required_daily_change_sign_magnitude 10 4 3 (by norm_num)

/-- Claim C1: in linear mode, if any metric's required daily change magnitude
strictly exceeds its RateModel-derived maximum, `main` terminates with exit
code 1 before any output is produced: the output directory is not created and
no CSV content is written (validation precedes `os.makedirs` and
`generate_csv`). -/
theorem feasibility_failure_aborts_run (p : Inputs) (wmax bfmax mmax : ℚ)
    (hfac : calculate_progression_factors p.experience_level p.gender p.age =
      some (wmax, bfmax, mmax))
    (hex : wmax < |calculate_required_daily_change p.w_init p.w_final p.n_days
            (decide (p.w_final < p.w_init))|
      ∨ bfmax < |calculate_required_daily_change p.bf_init p.bf_final p.n_days
            (decide (p.bf_final < p.bf_init))|
      ∨ mmax < |calculate_required_daily_change p.m_init p.m_final p.n_days
            (decide (p.m_final < p.m_init))|) :
    main p = some { exitCode := 1, madeOutputDir := false, csv := none } := by
  have hv : validate_daily_changes
      (calculate_required_daily_change p.w_init p.w_final p.n_days
        (decide (p.w_final < p.w_init)))
      (calculate_required_daily_change p.bf_init p.bf_final p.n_days
        (decide (p.bf_final < p.bf_init)))
      (calculate_required_daily_change p.m_init p.m_final p.n_days
        (decide (p.m_final < p.m_init)))
      wmax bfmax mmax = false :=
    (validate_daily_changes_false_iff _ _ _ _ _ _).mpr hex
  unfold main
  rw [hfac]
  simp [hv]

/-- Witness for C1 at the spec's concrete scenario: 10 days, weight 80 → 75,
intermediate experience, male, age 30 (required 0.5 kg/day > allowed 0.0475). -/
theorem feasibility_failure_aborts_run_witness :
    main ⟨10, 80, 75, 20, 20, 30, 30, 3, Gender.M, 30⟩ =
      some { exitCode := 1, madeOutputDir := false, csv := none } :=
  feasibility_failure_aborts_run ⟨10, 80, 75, 20, 20, 30, 30, 3, Gender.M, 30⟩
    (19/400) (57/500) (19/400)
    (by norm_num [calculate_progression_factors, gender_mul, age_mul])
    (Or.inl (by norm_num [calculate_required_daily_change, abs]))

/-- Claim C4: for parameters that pass feasibility validation, the three
trajectories all succeed with length exactly `n_days`, and the shared day axis
`list(range(1, n_days + 1))` has length `n_days` with entry `1 + k` at
index `k`. -/
theorem schedule_shape (p : Inputs) (h1 : 1 ≤ p.n_days) (dw dbf dm : ℚ)
    (hdw : dw = calculate_required_daily_change p.w_init p.w_final p.n_days
      (decide (p.w_final < p.w_init)))
    (hdbf : dbf = calculate_required_daily_change p.bf_init p.bf_final p.n_days
      (decide (p.bf_final < p.bf_init)))
    (hdm : dm = calculate_required_daily_change p.m_init p.m_final p.n_days
      (decide (p.m_final < p.m_init)))
    (wmax bfmax mmax : ℚ)
    (hfac : calculate_progression_factors p.experience_level p.gender p.age =
      some (wmax, bfmax, mmax))
    (hval : validate_daily_changes dw dbf dm wmax bfmax mmax = true) :
    ∃ ws bfs ms,
      calculate_daily_targets p.n_days p.w_init p.w_final dw = some ws ∧
      calculate_daily_targets p.n_days p.bf_init p.bf_final dbf = some bfs ∧
      calculate_daily_targets p.n_days p.m_init p.m_final dm = some ms ∧
      ws.length = p.n_days ∧ bfs.length = p.n_days ∧ ms.length = p.n_days ∧
      (List.range' 1 p.n_days).length = p.n_days ∧
      (∀ k, k < p.n_days → (List.range' 1 p.n_days)[k]? = some (1 + k)) := by
  obtain ⟨m, hm⟩ : ∃ m, p.n_days = m + 1 := ⟨p.n_days - 1, by omega⟩
  rw [hm]
  refine ⟨_, _, _, calculate_daily_targets_succ m p.w_init p.w_final dw,
    calculate_daily_targets_succ m p.bf_init p.bf_final dbf,
    calculate_daily_targets_succ m p.m_init p.m_final dm, ?_, ?_, ?_, ?_, ?_⟩
  · simp
  · simp
  · simp
  · exact List.length_range' 1 1 (m + 1)
  · intro k hk
    rw [List.getElem?_range' 1 1 hk]
    simp

/-- Witness for C4 at a feasible run: 3 days, all endpoints already met,
new-to-training male aged 20. -/
theorem schedule_shape_witness :
    ∃ ws bfs ms,
      calculate_daily_targets 3 80 80 0 = some ws ∧
      calculate_daily_targets 3 20 20 0 = some bfs ∧
      calculate_daily_targets 3 30 30 0 = some ms ∧
      ws.length = 3 ∧ bfs.length = 3 ∧ ms.length = 3 ∧
      (List.range' 1 3).length = 3 ∧
      (∀ k, k < 3 → (List.range' 1 3)[k]? = some (1 + k)) :=
  schedule_shape ⟨3, 80, 80, 20, 20, 30, 30, 1, Gender.M, 20⟩ (by norm_num)
    0 0 0 (by norm_num [calculate_required_daily_change, abs])
    (by norm_num [calculate_required_daily_change, abs])
    (by norm_num [calculate_required_daily_change, abs])
    (7/100) (14/100) (7/100)
    (by norm_num [calculate_progression_factors, gender_mul, age_mul])
    (by norm_num [validate_daily_changes, abs])

/-- The age chain of the code agrees with the spec's bracket table on all
integer ages. -/
lemma age_mul_eq_spec (age : ℤ) : age_mul age = spec_age_multiplier age := by
  unfold age_mul spec_age_multiplier
  split_ifs <;> first | rfl | (exfalso ; omega)

/-- The gender branch of the code agrees with the spec's multiplier table. -/
lemma gender_mul_eq_spec (g : Gender) : gender_mul g = spec_gender_multiplier g := by
  cases g <;> rfl

/-- The code's rate computation is the product of the spec's three tables,
whenever the spec table defines a base triple for the level. -/
lemma factors_eq_spec (lvl : ℤ) (g : Gender) (age : ℤ) (bw bbf bm : ℚ)
    (hb : spec_base_table lvl = some (bw, bbf, bm)) :
    calculate_progression_factors lvl g age =
      some (bw * spec_gender_multiplier g * spec_age_multiplier age,
            bbf * spec_gender_multiplier g * spec_age_multiplier age,
            bm * spec_gender_multiplier g * spec_age_multiplier age) := by
  have h1 : lvl = 1 ∨ lvl = 2 ∨ lvl = 3 ∨ lvl = 4 := by
    by_contra hc
    push_neg at hc
    obtain ⟨n1, n2, n3, n4⟩ := hc
    simp only [spec_base_table, List.lookup,
      beq_eq_false_iff_ne.mpr n1, beq_eq_false_iff_ne.mpr n2,
      beq_eq_false_iff_ne.mpr n3, beq_eq_false_iff_ne.mpr n4] at hb
    exact Option.noConfusion hb
  rcases h1 with rfl | rfl | rfl | rfl <;>
    · obtain ⟨rfl, rfl, rfl⟩ := Option.some.inj hb
      simp [calculate_progression_factors, gender_mul_eq_spec, age_mul_eq_spec]

/-- Claim C6: for every experience level in `{1,2,3,4}`, gender, and positive
age, `calculate_progression_factors` returns exactly
`base(level) * genderMultiplier * ageMultiplier` per metric, with the spec's
base, gender and age-bracket tables; the bracket boundary ages 25, 35, 45, 55
map to the bracket starting at that age. -/
theorem rate_model_matches_spec (lvl : ℤ) (g : Gender) (age : ℤ) (bw bbf bm : ℚ)
    (hl : lvl ∈ ([1, 2, 3, 4] : List ℤ)) (ha : 0 < age)
    (hb : spec_base_table lvl = some (bw, bbf, bm)) :
    calculate_progression_factors lvl g age =
      some (bw * spec_gender_multiplier g * spec_age_multiplier age,
            bbf * spec_gender_multiplier g * spec_age_multiplier age,
            bm * spec_gender_multiplier g * spec_age_multiplier age) ∧
    spec_age_multiplier 25 = 95/100 ∧ spec_age_multiplier 35 = 90/100 ∧
    spec_age_multiplier 45 = 85/100 ∧ spec_age_multiplier 55 = 80/100 := by
  refine ⟨factors_eq_spec lvl g age bw bbf bm hb, ?_, ?_, ?_, ?_⟩ <;>
    norm_num [spec_age_multiplier]

/-- Witness for C6 at the boundary age 25, intermediate level, male:
the age multiplier is `0.95`, not `1.0`. -/
theorem rate_model_matches_spec_witness :
    calculate_progression_factors 3 Gender.M 25 =
      some ((5:ℚ)/100 * spec_gender_multiplier Gender.M * spec_age_multiplier 25,
            (12:ℚ)/100 * spec_gender_multiplier Gender.M * spec_age_multiplier 25,
            (5:ℚ)/100 * spec_gender_multiplier Gender.M * spec_age_multiplier 25) ∧
    spec_age_multiplier 25 = 95/100 ∧ spec_age_multiplier 35 = 90/100 ∧
    spec_age_multiplier 45 = 85/100 ∧ spec_age_multiplier 55 = 80/100 :=
  rate_model_matches_spec 3 Gender.M 25 (5/100) (12/100) (5/100)
    (by norm_num) (by norm_num) rfl

/-- Claim C7: an experience level outside `{1,2,3,4}` is rejected by
`get_user_input` before any rate computation runs, and for a level inside
`{1,2,3,4}` every branch of `calculate_progression_factors` assigns the base
values, so its undefined-variable failure branch is unreachable. -/
theorem experience_level_guard (lvl : ℤ) :
    (lvl ∉ ([1, 2, 3, 4] : List ℤ) →
      ∀ (n_days : ℤ) (w_i w_f bf_i bf_f m_i m_f : ℚ) (gender : String) (age : ℤ),
        get_user_input n_days w_i w_f bf_i bf_f m_i m_f lvl gender age = none) ∧
    (lvl ∈ ([1, 2, 3, 4] : List ℤ) →
      ∀ (g : Gender) (age : ℤ), (calculate_progression_factors lvl g age).isSome = true) := by
  constructor
  · intro hnot n_days w_i w_f bf_i bf_f m_i m_f gender age
    by_cases h1 : n_days < 1 <;> simp [get_user_input, h1, hnot]
  · intro hmem g age
    simp only [List.mem_cons, List.not_mem_nil, or_false] at hmem
    rcases hmem with rfl | rfl | rfl | rfl <;> rfl

/-- Witness for C7: level 0 is rejected at the input boundary; level 4
computes its rates. -/
theorem experience_level_guard_witness :
    get_user_input 10 80 75 20 15 30 32 0 "M" 30 = none ∧
    (calculate_progression_factors 4 Gender.F 60).isSome = true :=
  ⟨(experience_level_guard 0).1 (by norm_num) 10 80 75 20 15 30 32 "M" 30,
   (experience_level_guard 4).2 (by norm_num) Gender.F 60⟩

/-- Claim C8: for equal-length inputs, `generate_csv` emits exactly one header
row `Day,Weight (kgs),Body Fat (%),Muscle (kgs)` followed by one row per day
with four comma-separated columns, the three real values rendered fixed to
two decimal places. -/
theorem csv_structure (days : List ℕ) (ws bfs ms : List ℚ)
    (h1 : ws.length = days.length) (h2 : bfs.length = days.length)
    (h3 : ms.length = days.length) :
    (generate_csv days ws bfs ms).length = days.length + 1 ∧
    (generate_csv days ws bfs ms).head? =
      some "Day,Weight (kgs),Body Fat (%),Muscle (kgs)" ∧
    ∀ k d w bf mu, days[k]? = some d → ws[k]? = some w → bfs[k]? = some bf →
      ms[k]? = some mu →
      (generate_csv days ws bfs ms)[k + 1]? =
        some (toString d ++ "," ++ format2 w ++ "," ++ format2 bf ++ ","
          ++ format2 mu) := by
  refine ⟨?_, rfl, ?_⟩
  · simp [generate_csv, List.length_zip, h1, h2, h3]
  · intro k d w bf mu hd hw hbf hmu
    have hz : (days.zip (ws.zip (bfs.zip ms)))[k]? = some (d, (w, (bf, mu))) :=
      zip_getElem_eq days _ k d (w, (bf, mu)) hd
        (zip_getElem_eq ws _ k w (bf, mu) hw
          (zip_getElem_eq bfs ms k bf mu hbf hmu))
    simp only [generate_csv, List.getElem?_cons_succ, List.getElem?_map, hz,
      Option.map_some']
    rfl

/-- Witness for C8 on a two-day schedule. -/
theorem csv_structure_witness :
    (generate_csv [1, 2] [80, 151/2] [20, 19] [30, 31]).length = [1, 2].length + 1 ∧
    (generate_csv [1, 2] [80, 151/2] [20, 19] [30, 31]).head? =
      some "Day,Weight (kgs),Body Fat (%),Muscle (kgs)" ∧
    ∀ k d w bf mu, ([1, 2] : List ℕ)[k]? = some d →
      ([80, 151/2] : List ℚ)[k]? = some w → ([20, 19] : List ℚ)[k]? = some bf →
      ([30, 31] : List ℚ)[k]? = some mu →
      (generate_csv [1, 2] [80, 151/2] [20, 19] [30, 31])[k + 1]? =
        some (toString d ++ "," ++ format2 w ++ "," ++ format2 bf ++ ","
          ++ format2 mu) :=
  csv_structure [1, 2] [80, 151/2] [20, 19] [30, 31] rfl rfl rfl

/-! Positivity and monotonicity facts about the multiplier tables, shared by
the monotonicity claim. -/

lemma spec_gender_multiplier_pos (g : Gender) : 0 < spec_gender_multiplier g := by
  cases g <;> norm_num [spec_gender_multiplier]

lemma spec_age_multiplier_pos (age : ℤ) : 0 < spec_age_multiplier age := by
  unfold spec_age_multiplier
  split_ifs <;> norm_num

lemma spec_age_multiplier_antitone (a1 a2 : ℤ) (h : a1 ≤ a2) :
    spec_age_multiplier a2 ≤ spec_age_multiplier a1 := by
  unfold spec_age_multiplier
  split_ifs <;> first | (exfalso ; omega) | norm_num

lemma base_mul_lt {b1 b2 : ℚ} (g : Gender) (age : ℤ) (hb : b2 < b1) :
    b2 * spec_gender_multiplier g * spec_age_multiplier age <
      b1 * spec_gender_multiplier g * spec_age_multiplier age :=
  mul_lt_mul_of_pos_right
    (mul_lt_mul_of_pos_right hb (spec_gender_multiplier_pos g))
    (spec_age_multiplier_pos age)

lemma base_mul_le_of_age {b : ℚ} (hb : 0 ≤ b) (g : Gender) {a1 a2 : ℤ}
    (h : a1 ≤ a2) :
    b * spec_gender_multiplier g * spec_age_multiplier a2 ≤
      b * spec_gender_multiplier g * spec_age_multiplier a1 := by
  rw [mul_assoc, mul_assoc]
  exact mul_le_mul_of_nonneg_left
    (mul_le_mul_of_nonneg_left (spec_age_multiplier_antitone a1 a2 h)
      (spec_gender_multiplier_pos g).le) hb

/-- The base table as a total function on the four valid levels (value at
other levels irrelevant), for stating the rate computation without `Option`. -/
def spec_base_fn (lvl : ℤ) : ℚ × ℚ × ℚ :=
  if lvl = 1 then (7/100, 14/100, 7/100)
  else if lvl = 2 then (6/100, 13/100, 6/100)
  else if lvl = 3 then (5/100, 12/100, 5/100)
  else (4/100, 10/100, 4/100)

/-- On the four valid levels the code's rate computation is the product of
`spec_base_fn` and the two multiplier tables. -/
lemma factors_eq_fn (lvl : ℤ) (hmem : lvl ∈ ([1, 2, 3, 4] : List ℤ))
    (g : Gender) (age : ℤ) :
    calculate_progression_factors lvl g age =
      some ((spec_base_fn lvl).1 * spec_gender_multiplier g * spec_age_multiplier age,
            (spec_base_fn lvl).2.1 * spec_gender_multiplier g * spec_age_multiplier age,
            (spec_base_fn lvl).2.2 * spec_gender_multiplier g * spec_age_multiplier age) := by
  fin_cases hmem <;>
    simp [calculate_progression_factors, spec_base_fn, gender_mul_eq_spec,
      age_mul_eq_spec]

/-- Claim C10: for fixed gender and age, each of the three maxima returned by
`calculate_progression_factors` is strictly decreasing in the experience level
from 1 to 4; for fixed level and gender, each is non-increasing in age. -/
theorem rate_model_monotone (g : Gender) :
    (∀ (age : ℤ) (l1 l2 : ℤ) (t1 t2 : ℚ × ℚ × ℚ),
      l1 ∈ ([1, 2, 3, 4] : List ℤ) → l2 ∈ ([1, 2, 3, 4] : List ℤ) → l1 < l2 →
      calculate_progression_factors l1 g age = some t1 →
      calculate_progression_factors l2 g age = some t2 →
      t2.1 < t1.1 ∧ t2.2.1 < t1.2.1 ∧ t2.2.2 < t1.2.2) ∧
    (∀ (lvl : ℤ) (a1 a2 : ℤ) (t1 t2 : ℚ × ℚ × ℚ),
      lvl ∈ ([1, 2, 3, 4] : List ℤ) → a1 ≤ a2 →
      calculate_progression_factors lvl g a1 = some t1 →
      calculate_progression_factors lvl g a2 = some t2 →
      t2.1 ≤ t1.1 ∧ t2.2.1 ≤ t1.2.1 ∧ t2.2.2 ≤ t1.2.2) := by
  constructor
  · intro age l1 l2 t1 t2 h1 h2 hlt hc1 hc2
    fin_cases h1 <;> fin_cases h2 <;>
      first
      | (exfalso ; omega)
      | (obtain rfl :=
          Option.some.inj ((factors_eq_fn _ (by norm_num) g age).symm.trans hc1)
         obtain rfl :=
          Option.some.inj ((factors_eq_fn _ (by norm_num) g age).symm.trans hc2)
         exact ⟨base_mul_lt g age (by norm_num [spec_base_fn]),
                base_mul_lt g age (by norm_num [spec_base_fn]),
                base_mul_lt g age (by norm_num [spec_base_fn])⟩)
  · intro lvl a1 a2 t1 t2 hm hle hc1 hc2
    fin_cases hm <;>
      (obtain rfl :=
        Option.some.inj ((factors_eq_fn _ (by norm_num) g a1).symm.trans hc1)
       obtain rfl :=
        Option.some.inj ((factors_eq_fn _ (by norm_num) g a2).symm.trans hc2)
       exact ⟨base_mul_le_of_age (by norm_num [spec_base_fn]) g hle,
              base_mul_le_of_age (by norm_num [spec_base_fn]) g hle,
              base_mul_le_of_age (by norm_num [spec_base_fn]) g hle⟩)

/-- Witness for C10: male, levels 1 < 2 at age 30 (strict decrease), and
level 4 at ages 20 ≤ 60 (non-increase). -/
theorem rate_model_monotone_witness :
    (((57:ℚ)/1000, (247:ℚ)/2000, (57:ℚ)/1000).1 <
        ((133:ℚ)/2000, (133:ℚ)/1000, (133:ℚ)/2000).1 ∧
      ((57:ℚ)/1000, (247:ℚ)/2000, (57:ℚ)/1000).2.1 <
        ((133:ℚ)/2000, (133:ℚ)/1000, (133:ℚ)/2000).2.1 ∧
      ((57:ℚ)/1000, (247:ℚ)/2000, (57:ℚ)/1000).2.2 <
        ((133:ℚ)/2000, (133:ℚ)/1000, (133:ℚ)/2000).2.2) ∧
    (((4:ℚ)/125, (2:ℚ)/25, (4:ℚ)/125).1 ≤ ((1:ℚ)/25, (1:ℚ)/10, (1:ℚ)/25).1 ∧
      ((4:ℚ)/125, (2:ℚ)/25, (4:ℚ)/125).2.1 ≤ ((1:ℚ)/25, (1:ℚ)/10, (1:ℚ)/25).2.1 ∧
      ((4:ℚ)/125, (2:ℚ)/25, (4:ℚ)/125).2.2 ≤ ((1:ℚ)/25, (1:ℚ)/10, (1:ℚ)/25).2.2) :=
  ⟨(rate_model_monotone Gender.M).1 30 1 2
      ((133:ℚ)/2000, (133:ℚ)/1000, (133:ℚ)/2000)
      ((57:ℚ)/1000, (247:ℚ)/2000, (57:ℚ)/1000)
      (by norm_num) (by norm_num) (by norm_num)
      (by norm_num [calculate_progression_factors, gender_mul, age_mul])
      (by norm_num [calculate_progression_factors, gender_mul, age_mul]),
   (rate_model_monotone Gender.M).2 4 20 60
      ((1:ℚ)/25, (1:ℚ)/10, (1:ℚ)/25) ((4:ℚ)/125, (2:ℚ)/25, (4:ℚ)/125)
      (by norm_num) (by norm_num)
      (by norm_num [calculate_progression_factors, gender_mul, age_mul])
      (by norm_num [calculate_progression_factors, gender_mul, age_mul])⟩

end BodyRecomp
